import Mathlib

/-!
Verification of the speech-transcript introduction scorer (`scorer.py`).

The scorer is modelled shallowly: the preprocessed transcript state
(`Scorer`) holds the raw text, the sentence list, the lowercased
non-punctuation word list and the provided duration, exactly the fields the
`IntroductionScorer` constructor derives.  External NLP services (the
sentence-embedding cosine similarity, the grammar-checking service and the
sentiment analyzer) are modelled as an oracle environment `Env`; the regular
expressions of the content scorer are executed by a small regex engine
faithful to the patterns in the source.  Numbers are exact rationals.
-/

attribute [local semireducible] Rat.inv Rat.mul Rat.add Rat.sub Rat.ofScientific

/-- Substring occurrence test on character lists: true iff `needle` occurs
as a contiguous segment of the haystack. -/
def containsSeg (needle : List Char) : List Char → Bool
  | [] => needle.isEmpty
  | c :: t => needle.isPrefixOf (c :: t) || containsSeg needle t

/-- Python `needle in hay` substring containment on strings. -/
def strContains (hay needle : String) : Bool :=
  containsSeg needle.data hay.data

/-- Python `s.replace(str(ch), "")`: delete every occurrence of a character. -/
def removeChar (ch : Char) (s : String) : String :=
  String.mk (s.data.filter (fun c => !(c == ch)))

/-- Python `s.lower()` (ASCII case folding, applied characterwise). -/
def strLower (s : String) : String :=
  String.mk (s.data.map Char.toLower)

/-- Python `s.upper()` (ASCII case folding, applied characterwise). -/
def strUpper (s : String) : String :=
  String.mk (s.data.map Char.toUpper)

/-- Python `"\n".join(lines)`. -/
def joinLines : List String → String
  | [] => ""
  | [l] => l
  | l :: l2 :: rest => l ++ "\n" ++ joinLines (l2 :: rest)

/-- Python `text[off : off + len]` (clamping slice). -/
def pySlice (text : String) (off len : Nat) : String :=
  String.mk ((text.data.drop off).take len)

/-! ### A small regex engine

Just enough of Python `re` for the patterns in `scorer.py`: character
classes, sequencing, alternation, star over a character class, and the
word-boundary assertion.  Literal characters are matched case-insensitively,
mirroring `re.IGNORECASE` on every `re.search` in the source. -/

/-- Python `\s` (ASCII whitespace). -/
def isPySpace (c : Char) : Bool :=
  c == ' ' || c == '\t' || c == '\n' || c == '\r' || c == '\x0b' || c == '\x0c'

/-- Python `\w` (ASCII word character), used by the `\b` assertion. -/
def isWordChar (c : Char) : Bool :=
  c.isAlphanum || c == '_'

/-- Word-character test on an optional character (string edge = non-word). -/
def boundOpt : Option Char → Bool
  | none => false
  | some c => isWordChar c

/-- Regex abstract syntax: empty, single-character class, sequence,
alternation, star over a character class, word boundary `\b`. -/
inductive Rx where
  | eps : Rx
  | cls : (Char → Bool) → Rx
  | seq : Rx → Rx → Rx
  | alt : Rx → Rx → Rx
  | starC : (Char → Bool) → Rx
  | wb : Rx

/-- All ways to consume an initial run of class characters; each state is
the previous character seen plus the remaining input. -/
def spansOf (p : Char → Bool) : Option Char → List Char → List (Option Char × List Char)
  | prev, [] => [(prev, [])]
  | prev, c :: rest =>
    (prev, c :: rest) :: (if p c then spansOf p (some c) rest else [])

/-- Nondeterministic matcher: all states reachable after matching the regex
from the given state. -/
def Rx.run : Rx → Option Char × List Char → List (Option Char × List Char)
  | .eps, st => [st]
  | .cls _, (_, []) => []
  | .cls p, (_, c :: rest) => if p c then [(some c, rest)] else []
  | .seq a b, st => (Rx.run a st).flatMap (fun st2 => Rx.run b st2)
  | .alt a b, st => Rx.run a st ++ Rx.run b st
  | .starC p, (prev, s) => spansOf p prev s
  | .wb, (prev, s) => if boundOpt prev != boundOpt s.head? then [(prev, s)] else []

/-- Try to match starting at each position in turn. -/
def searchAux (r : Rx) : Option Char → List Char → Bool
  | prev, [] => !(Rx.run r (prev, [])).isEmpty
  | prev, c :: rest => !(Rx.run r (prev, c :: rest)).isEmpty || searchAux r (some c) rest

/-- Python `re.search(pattern, text, re.IGNORECASE) is not None`. -/
def reSearch (r : Rx) (s : String) : Bool :=
  searchAux r none s.data

/-- Case-insensitive literal character. -/
def lit (c : Char) : Rx :=
  .cls (fun x => x.toLower == c.toLower)

/-- Case-insensitive literal string. -/
def rxStr (s : String) : Rx :=
  s.data.foldr (fun c r => .seq (lit c) r) .eps

/-- Alternation of a list of regexes. -/
def rxAlts : List Rx → Rx
  | [] => .cls (fun _ => false)
  | [r] => r
  | r :: r2 :: rest => .alt r (rxAlts (r2 :: rest))

/-- Sequence of a list of regexes. -/
def rxSeq (l : List Rx) : Rx :=
  l.foldr .seq .eps

/-- Python `\s*`. -/
def spStar : Rx := .starC isPySpace

/-- Python `\s+`. -/
def spPlus : Rx := .seq (.cls isPySpace) (.starC isPySpace)

/-- Python `\d+`. -/
def digitPlus : Rx := .seq (.cls Char.isDigit) (.starC Char.isDigit)

/-- Optional occurrence. -/
def rxOpt (r : Rx) : Rx := .alt r .eps

/-- Pattern `\b(name\s+is|i\s+am|i[\s'’]*m|myself|this\s+is)\s+([A-Z])`
with `re.IGNORECASE`. -/
def regex_name : Rx :=
  rxSeq [.wb,
    rxAlts [rxSeq [rxStr "name", spPlus, rxStr "is"],
            rxSeq [rxStr "i", spPlus, rxStr "am"],
            rxSeq [lit 'i', .starC (fun c => isPySpace c || c == '\x27' || c == '’'), lit 'm'],
            rxStr "myself",
            rxSeq [rxStr "this", spPlus, rxStr "is"]],
    spPlus, .cls Char.isAlpha]

/-- Pattern `\b(\d+|thirteen|fourteen|fifteen|sixteen)\s*(-)?\s*(years|yrs)\b`. -/
def regex_age : Rx :=
  rxSeq [.wb,
    rxAlts [digitPlus, rxStr "thirteen", rxStr "fourteen", rxStr "fifteen", rxStr "sixteen"],
    spStar, rxOpt (lit '-'), spStar,
    rxAlts [rxStr "years", rxStr "yrs"], .wb]

/-- Pattern `\b(class|grade|standard|school|college|university|study|student)\b`. -/
def regex_school : Rx :=
  rxSeq [.wb,
    rxAlts (["class", "grade", "standard", "school", "college", "university",
             "study", "student"].map rxStr), .wb]

/-- Pattern `\b(family|parents|mother|father|siblings)\b`. -/
def regex_family : Rx :=
  rxSeq [.wb, rxAlts (["family", "parents", "mother", "father", "siblings"].map rxStr), .wb]

/-- Pattern `\b(hobby|hobbies|enjoy|like\s+(to|playing|reading)|pastime)\b`. -/
def regex_hobbies : Rx :=
  rxSeq [.wb,
    rxAlts [rxStr "hobby", rxStr "hobbies", rxStr "enjoy",
            rxSeq [rxStr "like", spPlus, rxAlts [rxStr "to", rxStr "playing", rxStr "reading"]],
            rxStr "pastime"], .wb]

/-- Pattern `\b(goal|ambition|dream|want\s+to\s+be)\b`. -/
def regex_ambition : Rx :=
  rxSeq [.wb,
    rxAlts [rxStr "goal", rxStr "ambition", rxStr "dream",
            rxSeq [rxStr "want", spPlus, rxStr "to", spPlus, rxStr "be"]], .wb]

/-- Pattern `\b(strength|good\s+at|confident)\b`. -/
def regex_strength : Rx :=
  rxSeq [.wb,
    rxAlts [rxStr "strength", rxSeq [rxStr "good", spPlus, rxStr "at"], rxStr "confident"], .wb]

/-- Pattern `\b(unique|special|fun\s+fact)\b`. -/
def regex_unique : Rx :=
  rxSeq [.wb,
    rxAlts [rxStr "unique", rxStr "special", rxSeq [rxStr "fun", spPlus, rxStr "fact"]], .wb]

/-- Pattern
`\b(i\s+am\s+from|i['’]m\s+from|originally\s+from|live\s+in|living\s+in|born\s+in|hometown|native)\b`. -/
def regex_origin : Rx :=
  rxSeq [.wb,
    rxAlts [rxSeq [rxStr "i", spPlus, rxStr "am", spPlus, rxStr "from"],
            rxSeq [lit 'i', .cls (fun c => c == '\x27' || c == '’'), lit 'm', spPlus, rxStr "from"],
            rxSeq [rxStr "originally", spPlus, rxStr "from"],
            rxSeq [rxStr "live", spPlus, rxStr "in"],
            rxSeq [rxStr "living", spPlus, rxStr "in"],
            rxSeq [rxStr "born", spPlus, rxStr "in"],
            rxStr "hometown", rxStr "native"], .wb]

/-- Pattern `\b(won|achievement|award)\b`. -/
def regex_achievements : Rx :=
  rxSeq [.wb, rxAlts [rxStr "won", rxStr "achievement", rxStr "award"], .wb]

/-! ### Rubric constants (`RUBRIC` and inline lists in `scorer.py`) -/

/-- RUBRIC salutation normal tier. -/
def salutation_normal : List String := ["hi", "hello"]

/-- RUBRIC salutation good tier. -/
def salutation_good : List String :=
  ["good morning", "good afternoon", "good evening", "good day", "hello everyone"]

/-- RUBRIC salutation excellent tier. -/
def salutation_excellent : List String :=
  ["excited to introduce", "feeling great", "pleasure to introduce", "greetings"]

/-- RUBRIC filler-word list. -/
def fillers : List String :=
  ["um", "uh", "like", "you know", "actually", "basically", "right", "i mean",
   "well", "kinda", "sort of", "hmm"]

/-- High-energy keywords of the engagement scorer. -/
def high_energy_kws : List String :=
  ["excited", "thrilled", "passionate", "delighted", "honor",
   "love", "amazing", "wonderful", "fantastic", "energetic",
   "grateful", "confident", "pleasure"]

/-- Stylistic-issue keywords ignored by the grammar scorer. -/
def ignore_keywords : List String :=
  ["hyphen", "compound", "joined", "whitespace", "comma", "punctuation",
   "spelling", "typo", "morfologik", "uppercase", "capitalization",
   "repetition", "consecutive", "successive", "same word",
   "style", "wordiness", "sentence start", "rewording", "thesaurus"]

/-- Flow anchors for the salutation role. -/
def flow_sal_anchors : List String := ["Hello everyone", "Good morning", "Hi", "Greetings"]

/-- Flow anchors for the introduction role. -/
def flow_intro_anchors : List String := ["My name is", "I am", "I'm", "I’m", "Myself", "This is"]

/-- Flow anchors for the closing role. -/
def flow_closing_anchors : List String := ["Thank you", "Thanks", "That is all", "The end"]

/-- Flow anchors for the body role. -/
def flow_body_anchors : List String :=
  ["family", "mother", "school", "class", "hobby", "playing", "dream", "goal"]

/-- Content anchors for the family topic. -/
def anchors_family : List String := ["My family", "I live with"]

/-- Content anchors for the hobbies topic. -/
def anchors_hobbies : List String := ["My hobby is", "I enjoy"]

/-- Content anchors for the ambition bonus topic. -/
def anchors_ambition : List String := ["I want to become"]

/-- Content anchors for the strength bonus topic. -/
def anchors_strength : List String := ["My strength is"]

/-- Content anchors for the unique bonus topic. -/
def anchors_unique : List String := ["fun fact"]

/-- Content anchors for the achievements bonus topic. -/
def anchors_achievements : List String := ["I won"]

/-! ### Data model -/

/-- A match object returned by the external grammar-checking service. -/
structure GMatch where
  ruleId : String
  message : String
  replacements : List String
  offset : Nat
  errorLength : Nat
deriving DecidableEq

/-- Oracle environment for the external NLP services: `sim` is the cosine
similarity of the sentence embeddings of two strings, `grammar` the outcome
of `grammar_tool.check(text)` (a raised exception becomes `Except.error`),
`compound` the VADER compound polarity of the transcript. -/
structure Env where
  sim : String → String → ℚ
  grammar : Except String (List GMatch)
  compound : ℚ

/-- Preprocessed state of `IntroductionScorer.__init__`: raw text, trimmed
sentence list, lowercased non-punctuation word tokens, and the provided
duration in seconds (`0` encodes absent, matching the constructor). -/
structure Scorer where
  text : String
  sentences : List String
  words : List String
  provided_duration : ℚ

/-- Total word count `self.total_words`. -/
def Scorer.total_words (sc : Scorer) : Nat := sc.words.length

/-- Duration in minutes `self.duration_min`. -/
def Scorer.duration_min (sc : Scorer) : ℚ :=
  if sc.provided_duration ≠ 0 then sc.provided_duration / 60 else 0

/-- An entry of the score breakdown. -/
structure ScoreEntry where
  score : Nat
  max : Nat
  feedback : String

/-- The aggregate score report returned by `calculate_overall_score`. -/
structure ScoreReport where
  total : Nat
  breakdown : List (String × ScoreEntry)

/-! ### The eight scorers -/

/-- Maximum of a list of rationals (`tensor.max()` on a nonempty list). -/
def listMax : List ℚ → ℚ
  | [] => 0
  | [x] => x
  | x :: x2 :: rest => max x (listMax (x2 :: rest))

/-- Index of the first maximal element (`tensor.argmax()`). -/
def argmaxAux : List ℚ → Nat → Nat → ℚ → Nat
  | [], _, bi, _ => bi
  | x :: rest, i, bi, bv =>
    if x > bv then argmaxAux rest (i + 1) i x else argmaxAux rest (i + 1) bi bv

/-- First-maximum argmax of a list of rationals. -/
def argmaxFirst : List ℚ → Nat
  | [] => 0
  | x :: rest => argmaxAux rest 1 0 x

/-- `score_salutation`: case-insensitive substring search of the transcript
against the three rubric tiers, in strict priority order. -/
def score_salutation (sc : Scorer) : Nat × String :=
  let text_lower := strLower sc.text
  match salutation_excellent.find? (fun p => strContains text_lower p) with
  | some phrase => (5, "Excellent salutation used: '" ++ phrase ++ "'")
  | none =>
  match salutation_good.find? (fun p => strContains text_lower p) with
  | some phrase => (4, "Good salutation used: '" ++ phrase ++ "'")
  | none =>
  match salutation_normal.find? (fun p => strContains text_lower p) with
  | some _ => (2, "Basic salutation used (Hi/Hello). Try to be more formal.")
  | none => (0, "No salutation found.")

/-- `check_topic_robust`: fast regex check, then semantic fallback comparing
the best sentence-to-anchor cosine similarity with `0.35`. -/
def check_topic_robust (sc : Scorer) (env : Env) (rx : Rx) (anchors : List String)
    (use_ai : Bool) : Bool :=
  if reSearch rx sc.text then true
  else if use_ai && !sc.sentences.isEmpty then
    decide (listMax (sc.sentences.flatMap (fun s => anchors.map (env.sim s))) > (7/20 : ℚ))
  else false

/-- Raw (unclamped) content score: 4 points per must-have topic found,
2 points per bonus topic found. -/
def contentRaw (nb ab sb famb hob amb stb ub ob achb : Bool) : Nat :=
  (if nb then 4 else 0) + (if ab then 4 else 0) + (if sb then 4 else 0) +
  (if famb then 4 else 0) + (if hob then 4 else 0) +
  (if amb then 2 else 0) + (if stb then 2 else 0) + (if ub then 2 else 0) +
  (if ob then 2 else 0) + (if achb then 2 else 0)

/-- `score_content`: regex checks for name, age and school, robust checks for
family, hobbies and the five bonus topics; total clamped to 30. -/
def score_content (sc : Scorer) (env : Env) : Nat × String :=
  let nb := reSearch regex_name sc.text
  let ab := reSearch regex_age sc.text
  let sb := reSearch regex_school sc.text
  let famb := check_topic_robust sc env regex_family anchors_family true
  let hob := check_topic_robust sc env regex_hobbies anchors_hobbies true
  let amb := check_topic_robust sc env regex_ambition anchors_ambition true
  let stb := check_topic_robust sc env regex_strength anchors_strength true
  let ub := check_topic_robust sc env regex_unique anchors_unique true
  let ob := check_topic_robust sc env regex_origin [] false
  let achb := check_topic_robust sc env regex_achievements anchors_achievements true
  let feedback :=
    [if nb then "[+] Name" else "[-] Name",
     if ab then "[+] Age" else "[-] Age",
     if sb then "[+] School" else "[-] School",
     if famb then "[+] Family" else "[-] Family",
     if hob then "[+] Hobbies" else "[-] Hobbies"]
    ++ (if amb then ["[+] Ambition"] else [])
    ++ (if stb then ["[+] Strength"] else [])
    ++ (if ub then ["[+] Unique"] else [])
    ++ (if ob then ["[+] Origin"] else [])
    ++ (if achb then ["[+] Achievements"] else [])
  (min 30 (contentRaw nb ab sb famb hob amb stb ub ob achb), String.intercalate ", " feedback)

/-- Per-sentence best similarity to a role's anchor set
(`util.cos_sim(text_emb, anc).max(dim=1).values`). -/
def roleSims (sim : String → String → ℚ) (sents anchors : List String) : List ℚ :=
  sents.map (fun s => listMax (anchors.map (sim s)))

/-- `get_idx`: best-matching sentence index for a role and whether its best
similarity exceeds the role's threshold. -/
def get_idx (sim : String → String → ℚ) (sents anchors : List String) (thresh : ℚ) :
    Nat × Bool :=
  let sims := roleSims sim sents anchors
  (argmaxFirst sims, decide (listMax sims > thresh))

/-- `score_flow`: locate the salutation, introduction and closing roles and
apply the ordering decision policy of the source. -/
def score_flow (sc : Scorer) (env : Env) : Nat × String :=
  if sc.sentences.isEmpty then (0, "No text") else
  let si := get_idx env.sim sc.sentences flow_sal_anchors (1/4)
  let ii := get_idx env.sim sc.sentences flow_intro_anchors (1/4)
  let ci := get_idx env.sim sc.sentences flow_closing_anchors (3/10)
  let has_body :=
    if ii.2 && ci.2 && decide (ii.1 < ci.1) then
      if ci.1 - ii.1 ≥ 1 then
        let mid := (sc.sentences.drop (ii.1 + 1)).take (ci.1 - (ii.1 + 1))
        if !mid.isEmpty then
          decide (listMax (mid.flatMap (fun m => flow_body_anchors.map (env.sim m))) > (1/4 : ℚ))
        else false
      else false
    else false
  let dS := if si.2 then toString si.1 else "X"
  let dI := if ii.2 then toString ii.1 else "X"
  let dC := if ci.2 then toString ci.1 else "X"
  let debug_info := "(Indices: Sal=" ++ dS ++ ", Intro=" ++ dI ++ ", End=" ++ dC ++ ")"
  if si.2 && ci.2 then
    if ii.2 then
      if si.1 ≤ ii.1 ∧ ii.1 < ci.1 then
        if has_body then (5, "Perfect Flow") else (5, "Good Flow (Short body)")
      else if ii.1 = ci.1 then
        (0, "Disordered: Introduction and Closing are detected in same sentence. " ++ debug_info)
      else (0, "Flow disordered. " ++ debug_info)
    else if si.1 < ci.1 then
      if has_body then (5, "Good Flow") else (5, "Acceptable Flow")
    else (0, "Flow disordered. " ++ debug_info)
  else (0, "Flow disordered. " ++ debug_info)

/-- Words per minute (`self.total_words / self.duration_min`, 0 when the
duration in minutes is not positive). -/
def wpmOf (sc : Scorer) : ℚ :=
  if sc.duration_min > 0 then (sc.total_words : ℚ) / sc.duration_min else 0

/-- `score_speech_rate`: charitable default without a duration, then banded
words-per-minute thresholds, first match wins. -/
def score_speech_rate (sc : Scorer) : Nat × String :=
  if sc.provided_duration = 0 then (10, "Duration not provided (Assumed Ideal)")
  else
    let wpm := wpmOf sc
    if 111 ≤ wpm ∧ wpm ≤ 140 then (10, "Ideal (" ++ toString (Rat.floor wpm) ++ " WPM)")
    else if 81 ≤ wpm ∧ wpm ≤ 160 then (6, "Acceptable (" ++ toString (Rat.floor wpm) ++ " WPM)")
    else if 140 < wpm then (2, "Too Fast (" ++ toString (Rat.floor wpm) ++ " WPM)")
    else if wpm < 81 then (2, "Too Slow (" ++ toString (Rat.floor wpm) ++ " WPM)")
    else (2, "Poor Pacing (" ++ toString (Rat.floor wpm) ++ " WPM)")

/-- The flagged text `self.text[offset : offset + length]` of a match. -/
def errTextOf (text : String) (m : GMatch) : String :=
  pySlice text m.offset m.errorLength

/-- The filtering predicate of `score_grammar`: a match is ignored when its
top replacement is a pure hyphenation suggestion (hyphens removed from the
suggestion equal the flagged text with spaces removed) or when its message
or lowercased rule id contains a stylistic-issue keyword. -/
def matchIgnored (text : String) (m : GMatch) : Bool :=
  let msg := strLower m.message
  let rid := strUpper m.ruleId
  let error_text := errTextOf text m
  let hyph :=
    match m.replacements with
    | [] => false
    | top :: _ => strContains top "-" && (removeChar '-' top == removeChar ' ' error_text)
  let kw := ignore_keywords.any (fun k => strContains msg k || strContains (strLower rid) k)
  hyph || kw

/-- Matches that count toward the error rate. -/
def grammar_scoring_errors (text : String) (ms : List GMatch) : List GMatch :=
  ms.filter (fun m => !matchIgnored text m)

/-- Matches excluded from scoring but reported separately. -/
def grammar_ignored_issues (text : String) (ms : List GMatch) : List GMatch :=
  ms.filter (fun m => matchIgnored text m)

/-- Feedback context `self.text[off : off+ln+10].replace('\n', ' ')`. -/
def gctx (text : String) (m : GMatch) : String :=
  String.mk (((text.data.drop m.offset).take (m.errorLength + 10)).map
    (fun c => if c == '\n' then ' ' else c))

/-- `score_grammar`: filter the service's matches, band a linear penalty on
the errors-per-100-words rate, and format feedback; a service error is
caught and downgraded to score 5. -/
def score_grammar (sc : Scorer) (env : Env) : Nat × String :=
  match env.grammar with
  | .error e => (5, "Error during grammar check: " ++ e)
  | .ok ms =>
    let scoring_errors := grammar_scoring_errors sc.text ms
    let ignored_issues := grammar_ignored_issues sc.text ms
    let errors_per_100 : ℚ :=
      if sc.total_words > 0 then ((scoring_errors.length : ℚ) / (sc.total_words : ℚ)) * 100
      else 0
    let grammar_metric : ℚ := 1 - min (errors_per_100 / 5) 1
    let sg : Nat × String :=
      if grammar_metric > 9/10 then (10, "Flawless")
      else if grammar_metric ≥ 7/10 then (8, "Good")
      else if grammar_metric ≥ 1/2 then (6, "Average")
      else if grammar_metric ≥ 3/10 then (4, "Needs Improvement")
      else (2, "Poor")
    let fb1 := sg.2 ++ " (Score: " ++ toString sg.1 ++ "/10)"
    let fb2 := "NOTE: Spelling, hyphens, punctuation, and style ignored."
    let critical :=
      if scoring_errors.isEmpty then ["\n[CRITICAL GRAMMAR ERRORS]: None."]
      else ("\n[CRITICAL GRAMMAR ERRORS] (" ++ toString scoring_errors.length ++ " found):") ::
        (scoring_errors.take 3).map (fun m =>
          "   - " ++ m.message ++ " (Context: '..." ++ gctx sc.text m ++ "...')")
    let ignoredSec :=
      if ignored_issues.isEmpty then ([] : List String)
      else ("\n[IGNORED ISSUES] (" ++ toString ignored_issues.length ++ " found):") ::
        (ignored_issues.take 3).map (fun m =>
          "   - " ++ m.message ++ " (Context: '..." ++ gctx sc.text m ++ "...')")
    (sg.1, joinLines ([fb1, fb2] ++ critical ++ ignoredSec))

/-- Two-decimal formatting of a rational (Python `f"{x:.2f}"` on the exact
values arising here). -/
def fmt2 (q : ℚ) : String :=
  let n : Int := Rat.floor (q * 100 + 1/2)
  let sign := if n < 0 then "-" else ""
  let m := n.natAbs
  let r := m % 100
  sign ++ toString (m / 100) ++ "." ++ (if r < 10 then "0" else "") ++ toString r

/-- `score_vocabulary`: banded type-token ratio. -/
def score_vocabulary (sc : Scorer) : Nat × String :=
  let distinct := sc.words.dedup.length
  let ttr : ℚ := if sc.total_words > 0 then (distinct : ℚ) / (sc.total_words : ℚ) else 0
  if ttr ≥ 9/10 then (10, "Excellent variety (TTR: " ++ fmt2 ttr ++ ")")
  else if ttr ≥ 7/10 then (8, "Good variety (TTR: " ++ fmt2 ttr ++ ")")
  else if ttr ≥ 1/2 then (6, "Average variety (TTR: " ++ fmt2 ttr ++ ")")
  else if ttr ≥ 3/10 then (4, "Repetitive (TTR: " ++ fmt2 ttr ++ ")")
  else (2, "Very repetitive (TTR: " ++ fmt2 ttr ++ ")")

/-- `score_clarity`: banded filler-word rate. -/
def score_clarity (sc : Scorer) : Nat × String :=
  let filler_count := (sc.words.filter (fun w => fillers.contains w)).length
  let filler_rate : ℚ :=
    if sc.total_words > 0 then ((filler_count : ℚ) / (sc.total_words : ℚ)) * 100 else 0
  if filler_rate ≤ 3 then (15, "Clear speech (" ++ toString filler_count ++ " fillers)")
  else if filler_rate ≤ 6 then (12, "Mostly clear (" ++ toString filler_count ++ " fillers)")
  else if filler_rate ≤ 9 then (9, "Some hesitation (" ++ toString filler_count ++ " fillers)")
  else if filler_rate ≤ 12 then (6, "Hesitant (" ++ toString filler_count ++ " fillers)")
  else (3, "Distracted by fillers (" ++ toString filler_count ++ " fillers)")

/-- Whether the transcript contains a high-energy keyword. -/
def hasEnthusiasm (text : String) : Bool :=
  high_energy_kws.any (fun w => strContains (strLower text) w)

/-- `score_engagement`: normalized sentiment probability, capped at 0.88
when high without supporting enthusiasm vocabulary, then banded. -/
def score_engagement (sc : Scorer) (env : Env) : Nat × String :=
  let prob0 : ℚ := (env.compound + 1) / 2
  let prob : ℚ :=
    if prob0 ≥ 9/10 ∧ hasEnthusiasm sc.text = false then 22/25 else prob0
  if prob ≥ 9/10 then (15, "Very Engaging (Sentiment: " ++ fmt2 prob ++ ")")
  else if prob ≥ 7/10 then (12, "Positive (Sentiment: " ++ fmt2 prob ++ ")")
  else if prob ≥ 1/2 then (9, "Neutral (Sentiment: " ++ fmt2 prob ++ ")")
  else if prob ≥ 3/10 then (6, "Slightly Negative (Sentiment: " ++ fmt2 prob ++ ")")
  else (3, "Negative (Sentiment: " ++ fmt2 prob ++ ")")

/-- `calculate_overall_score`: run the eight scorers and assemble the fixed
breakdown with the total as the sum of the eight scores. -/
def calculate_overall_score (sc : Scorer) (env : Env) : ScoreReport :=
  let rsal := score_salutation sc
  let rcon := score_content sc env
  let rflo := score_flow sc env
  let rrat := score_speech_rate sc
  let rgra := score_grammar sc env
  let rvoc := score_vocabulary sc
  let rcla := score_clarity sc
  let reng := score_engagement sc env
  { total := rsal.1 + rcon.1 + rflo.1 + rrat.1 + rgra.1 + rvoc.1 + rcla.1 + reng.1
    breakdown :=
      [("Salutation", ⟨rsal.1, 5, rsal.2⟩),
       ("Content & Structure", ⟨rcon.1, 30, rcon.2⟩),
       ("Flow", ⟨rflo.1, 5, rflo.2⟩),
       ("Speech Rate", ⟨rrat.1, 10, rrat.2⟩),
       ("Grammar", ⟨rgra.1, 10, rgra.2⟩),
       ("Vocabulary", ⟨rvoc.1, 10, rvoc.2⟩),
       ("Clarity (Fillers)", ⟨rcla.1, 15, rcla.2⟩),
       ("Engagement", ⟨reng.1, 15, reng.2⟩)] }

/-! ### Helper lemmas -/

theorem containsSeg_iff (n : List Char) : ∀ h : List Char, containsSeg n h = true ↔ n <:+: h := by
  intro h
  induction h with
  | nil => simp [containsSeg, List.isEmpty_iff]
  | cons c t ih =>
    simp [containsSeg, List.infix_cons_iff, List.isPrefixOf_iff_prefix, ih]

theorem strContains_iff (hay needle : String) :
    strContains hay needle = true ↔ needle.data <:+: hay.data := by
  simp [strContains, containsSeg_iff]

theorem infix_joinLines {l : String} : ∀ {ls : List String}, l ∈ ls →
    l.data <:+: (joinLines ls).data := by
  intro ls
  induction ls with
  | nil => intro h; simp at h
  | cons a rest ih =>
    intro h
    cases rest with
    | nil =>
      rcases List.mem_singleton.mp h with rfl
      exact List.infix_refl _
    | cons b rest2 =>
      rcases List.mem_cons.mp h with rfl | h2
      · show l.data <:+: ((l ++ "\n") ++ joinLines (b :: rest2)).data
        rw [String.data_append, String.data_append]
        exact ((List.prefix_append l.data "\n".data).trans
          (List.prefix_append _ (joinLines (b :: rest2)).data)).isInfix
      · show l.data <:+: ((a ++ "\n") ++ joinLines (b :: rest2)).data
        rw [String.data_append]
        exact (ih h2).trans (List.suffix_append _ _).isInfix

/-! ### Concrete inputs used as witnesses and counterexamples -/

/-- A scorer state for the empty transcript with no duration. -/
def scEmpty : Scorer := ⟨"", [], [], 0⟩

/-- An oracle environment with zero similarity, no grammar matches and
neutral sentiment. -/
def envZero : Env := ⟨fun _ _ => 0, .ok [], 0⟩

/-- 150 words over 60 seconds. -/
def sc150 : Scorer := ⟨"", [], List.replicate 150 "w", 60⟩

/-- 125 words over 60 seconds. -/
def sc125 : Scorer := ⟨"", [], List.replicate 125 "w", 60⟩

/-- 170 words over 60 seconds. -/
def sc170 : Scorer := ⟨"", [], List.replicate 170 "w", 60⟩

/-! ### Claim theorems -/

/-- C10: when the preprocessed sentence list is empty the flow scorer
returns score 0 with feedback exactly "No text", for every oracle
environment — no embedding or role index can influence the result. -/
theorem flow_empty_sentences (sc : Scorer) (env : Env) (h : sc.sentences = []) :
    score_flow sc env = (0, "No text") := by
  simp [score_flow, h]

/-- Witness for `flow_empty_sentences`. -/
theorem flow_empty_sentences_witness : score_flow scEmpty envZero = (0, "No text") :=
  flow_empty_sentences scEmpty envZero rfl

/-- C6: on an empty word list every division by the word count is guarded:
vocabulary uses ratio 0 and scores 2 "Very repetitive", clarity uses filler
rate 0 and scores 15 "Clear speech", and a zero/absent duration makes the
speech-rate scorer return 10 "Duration not provided (Assumed Ideal)". -/
theorem empty_transcript_guards (sc : Scorer) (hw : sc.words = [])
    (hd : sc.provided_duration = 0) :
    score_vocabulary sc = (2, "Very repetitive (TTR: 0.00)") ∧
    score_clarity sc = (15, "Clear speech (0 fillers)") ∧
    score_speech_rate sc = (10, "Duration not provided (Assumed Ideal)") := by
  obtain ⟨t, s, w, d⟩ := sc
  dsimp only at hw hd
  subst hw hd
  refine ⟨?_, ?_, rfl⟩
  · have h1 : score_vocabulary ⟨t, s, [], 0⟩ =
        (2, "Very repetitive (TTR: " ++ fmt2 0 ++ ")") := rfl
    rw [h1]; decide
  · have h2 : score_clarity ⟨t, s, [], 0⟩ =
        (15, "Clear speech (" ++ toString (0 : Nat) ++ " fillers)") := rfl
    rw [h2]; decide

/-- Witness for `empty_transcript_guards`. -/
theorem empty_transcript_guards_witness :
    score_vocabulary scEmpty = (2, "Very repetitive (TTR: 0.00)") ∧
    score_clarity scEmpty = (15, "Clear speech (0 fillers)") ∧
    score_speech_rate scEmpty = (10, "Duration not provided (Assumed Ideal)") :=
  empty_transcript_guards scEmpty rfl rfl

/-- C5: a grammar-service error is caught: the grammar scorer returns
exactly 5 with feedback "Error during grammar check: " followed by the
message, and the overall report is still produced with all eight fixed
categories, the Grammar entry carrying score 5. -/
theorem grammar_error_recovery (sc : Scorer) (env : Env) (e : String)
    (h : env.grammar = Except.error e) :
    score_grammar sc env = (5, "Error during grammar check: " ++ e) ∧
    ("Grammar", (⟨5, 10, "Error during grammar check: " ++ e⟩ : ScoreEntry)) ∈
      (calculate_overall_score sc env).breakdown ∧
    (calculate_overall_score sc env).breakdown.map (fun x => x.1) =
      ["Salutation", "Content & Structure", "Flow", "Speech Rate", "Grammar",
       "Vocabulary", "Clarity (Fillers)", "Engagement"] := by
  have h1 : score_grammar sc env = (5, "Error during grammar check: " ++ e) := by
    simp [score_grammar, h]
  refine ⟨h1, ?_, rfl⟩
  simp [calculate_overall_score, h1]

/-- Witness for `grammar_error_recovery`. -/
theorem grammar_error_recovery_witness :
    score_grammar scEmpty ⟨fun _ _ => 0, .error "boom", 0⟩ =
      (5, "Error during grammar check: boom") :=
  (grammar_error_recovery scEmpty ⟨fun _ _ => 0, .error "boom", 0⟩ "boom" rfl).1

set_option maxRecDepth 8000 in
/-- C2 counterexample: 150 words over 60 seconds yield WPM 150, which the
code scores 6 "Acceptable" (the 81–160 band is checked before the
greater-than-140 band), not 2 "Too Fast" as the claim states. -/
theorem speech_rate_150_counterexample :
    score_speech_rate sc150 = (6, "Acceptable (150 WPM)") ∧
    (score_speech_rate sc150).1 ≠ 2 ∧
    (score_speech_rate sc150).2 ≠ "Too Fast (150 WPM)" := by
  refine ⟨by decide, by decide, by decide⟩

set_option maxRecDepth 8000 in
/-- C2 amended: 150 words over 60 seconds give WPM 150 and score 6
"Acceptable"; 125 words give WPM 125 and score 10 "Ideal"; thresholds are
checked in order with the first match winning: 111–140 inclusive → 10,
81–160 inclusive → 6, then > 140 → 2 "Too Fast", then < 81 → 2 "Too Slow". -/
theorem speech_rate_amended :
    score_speech_rate sc150 = (6, "Acceptable (150 WPM)") ∧
    score_speech_rate sc125 = (10, "Ideal (125 WPM)") ∧
    ∀ sc : Scorer, sc.provided_duration ≠ 0 →
      ((111 ≤ wpmOf sc ∧ wpmOf sc ≤ 140) →
        score_speech_rate sc = (10, "Ideal (" ++ toString (Rat.floor (wpmOf sc)) ++ " WPM)")) ∧
      (¬(111 ≤ wpmOf sc ∧ wpmOf sc ≤ 140) → (81 ≤ wpmOf sc ∧ wpmOf sc ≤ 160) →
        score_speech_rate sc = (6, "Acceptable (" ++ toString (Rat.floor (wpmOf sc)) ++ " WPM)")) ∧
      (¬(111 ≤ wpmOf sc ∧ wpmOf sc ≤ 140) → ¬(81 ≤ wpmOf sc ∧ wpmOf sc ≤ 160) →
        140 < wpmOf sc →
        score_speech_rate sc = (2, "Too Fast (" ++ toString (Rat.floor (wpmOf sc)) ++ " WPM)")) ∧
      (¬(111 ≤ wpmOf sc ∧ wpmOf sc ≤ 140) → ¬(81 ≤ wpmOf sc ∧ wpmOf sc ≤ 160) →
        ¬(140 < wpmOf sc) → wpmOf sc < 81 →
        score_speech_rate sc = (2, "Too Slow (" ++ toString (Rat.floor (wpmOf sc)) ++ " WPM)")) := by
  refine ⟨by decide, by decide, ?_⟩
  intro sc hd
  refine ⟨?_, ?_, ?_, ?_⟩
  · intro h1; simp [score_speech_rate, hd, h1]
  · intro h1 h2; simp [score_speech_rate, hd, h1, h2]
  · intro h1 h2 h3; simp [score_speech_rate, hd, h1, h2, h3]
  · intro h1 h2 h3 h4; simp [score_speech_rate, hd, h1, h2, h3, h4]

set_option maxRecDepth 8000 in
/-- Witness for `speech_rate_amended`: 170 words over 60 seconds fall past
both inclusive bands and score 2 "Too Fast". -/
theorem speech_rate_amended_witness :
    score_speech_rate sc170 = (2, "Too Fast (170 WPM)") := by
  have h := (speech_rate_amended.2.2 sc170 (by decide)).2.2.1 (by decide) (by decide) (by decide)
  exact h

/-- C9: when the normalized sentiment probability is at least 0.9 but the
transcript has no enthusiasm keyword, the probability is capped at 0.88 and
the engagement score is 12 "Positive"; the top band 15 is therefore reached
only when an enthusiasm keyword is present. -/
theorem engagement_cap (sc : Scorer) (env : Env) :
    ((env.compound + 1) / 2 ≥ 9/10 → hasEnthusiasm sc.text = false →
      score_engagement sc env = (12, "Positive (Sentiment: 0.88)")) ∧
    ((score_engagement sc env).1 = 15 → hasEnthusiasm sc.text = true) := by
  constructor
  · intro hp hk
    have hcond : (env.compound + 1) / 2 ≥ (9:ℚ)/10 ∧ hasEnthusiasm sc.text = false := ⟨hp, hk⟩
    simp only [score_engagement, if_pos hcond]
    decide
  · intro h15
    by_cases hk : hasEnthusiasm sc.text = true
    · exact hk
    · exfalso
      have hk' : hasEnthusiasm sc.text = false := by
        cases hx : hasEnthusiasm sc.text
        · rfl
        · exact absurd hx hk
      by_cases hp : (env.compound + 1) / 2 ≥ (9:ℚ)/10
      · have hcond : (env.compound + 1) / 2 ≥ (9:ℚ)/10 ∧ hasEnthusiasm sc.text = false :=
          ⟨hp, hk'⟩
        simp only [score_engagement, if_pos hcond] at h15
        norm_num at h15
      · have hcond : ¬((env.compound + 1) / 2 ≥ (9:ℚ)/10 ∧ hasEnthusiasm sc.text = false) :=
          fun hc => hp hc.1
        simp only [score_engagement, if_neg hcond] at h15
        rw [if_neg hp] at h15
        split_ifs at h15 <;> simp at h15

/-- Witness for `engagement_cap`: compound 1 on an empty transcript gives
probability 1, lacks enthusiasm vocabulary, and scores 12 "Positive". -/
theorem engagement_cap_witness :
    score_engagement scEmpty ⟨fun _ _ => 0, .ok [], 1⟩ = (12, "Positive (Sentiment: 0.88)") :=
  (engagement_cap scEmpty ⟨fun _ _ => 0, .ok [], 1⟩).1 (by decide) (by decide)

/-- C8: with salutation and closing present, no introduction, and the
salutation index strictly before the closing index, the flow scorer returns
score 5; the body flag cannot be set without an introduction, so the
feedback in this branch is always "Acceptable Flow". -/
theorem flow_no_intro_branch (sc : Scorer) (env : Env)
    (hne : sc.sentences ≠ [])
    (hs : (get_idx env.sim sc.sentences flow_sal_anchors (1/4)).2 = true)
    (hi : (get_idx env.sim sc.sentences flow_intro_anchors (1/4)).2 = false)
    (hc : (get_idx env.sim sc.sentences flow_closing_anchors (3/10)).2 = true)
    (hlt : (get_idx env.sim sc.sentences flow_sal_anchors (1/4)).1 <
           (get_idx env.sim sc.sentences flow_closing_anchors (3/10)).1) :
    score_flow sc env = (5, "Acceptable Flow") := by
  have hne' : sc.sentences.isEmpty = false := List.isEmpty_eq_false.mpr hne
  simp only [score_flow, hne', hs, hi, hc, Bool.false_eq_true, if_false, Bool.and_self,
    Bool.false_and, Bool.and_false, if_true, Bool.true_and]
  rw [if_pos hlt]

/-- A two-sentence scorer state used to exercise the no-introduction flow
branch. -/
def scFlow : Scorer := ⟨"", ["a", "b"], [], 0⟩

/-- A similarity oracle matching the first sentence to "Hi" and the second
to "Thank you" only. -/
def envFlow : Env :=
  ⟨fun s a => if s = "a" ∧ a = "Hi" then 1 else if s = "b" ∧ a = "Thank you" then 1 else 0,
   .ok [], 0⟩

/-- Witness for `flow_no_intro_branch`. -/
theorem flow_no_intro_branch_witness : score_flow scFlow envFlow = (5, "Acceptable Flow") :=
  flow_no_intro_branch scFlow envFlow (by decide) (by decide) (by decide) (by decide) (by decide)

/-! ### Per-scorer score bounds -/

theorem score_salutation_fst_le (sc : Scorer) : (score_salutation sc).1 ≤ 5 := by
  unfold score_salutation
  dsimp only
  repeat' split <;> norm_num

theorem score_content_fst_le (sc : Scorer) (env : Env) : (score_content sc env).1 ≤ 30 := by
  simp only [score_content]
  exact Nat.min_le_left _ _

theorem score_flow_fst_le (sc : Scorer) (env : Env) : (score_flow sc env).1 ≤ 5 := by
  unfold score_flow
  repeat' split <;> norm_num

theorem score_speech_rate_fst_le (sc : Scorer) : (score_speech_rate sc).1 ≤ 10 := by
  unfold score_speech_rate
  repeat' split <;> norm_num

theorem score_grammar_fst_le (sc : Scorer) (env : Env) : (score_grammar sc env).1 ≤ 10 := by
  unfold score_grammar
  repeat' split <;> norm_num

theorem score_vocabulary_fst_le (sc : Scorer) : (score_vocabulary sc).1 ≤ 10 := by
  unfold score_vocabulary
  repeat' split <;> norm_num

theorem score_clarity_fst_le (sc : Scorer) : (score_clarity sc).1 ≤ 15 := by
  unfold score_clarity
  repeat' split <;> norm_num

theorem score_engagement_fst_le (sc : Scorer) (env : Env) : (score_engagement sc env).1 ≤ 15 := by
  unfold score_engagement
  dsimp only
  repeat' split <;> norm_num

/-- C1: the report's total equals the sum of the eight breakdown scores, the
breakdown carries exactly the eight fixed category keys in order, and the
total lies between 0 and 100, for every transcript state and oracle. -/
theorem overall_report_invariants (sc : Scorer) (env : Env) :
    (calculate_overall_score sc env).total =
      ((calculate_overall_score sc env).breakdown.map (fun e => e.2.score)).sum ∧
    (calculate_overall_score sc env).breakdown.map (fun e => e.1) =
      ["Salutation", "Content & Structure", "Flow", "Speech Rate", "Grammar",
       "Vocabulary", "Clarity (Fillers)", "Engagement"] ∧
    0 ≤ (calculate_overall_score sc env).total ∧
    (calculate_overall_score sc env).total ≤ 100 := by
  refine ⟨?_, rfl, Nat.zero_le _, ?_⟩
  · simp only [calculate_overall_score, List.map_cons, List.map_nil, List.sum_cons,
      List.sum_nil]
    omega
  · have h1 := score_salutation_fst_le sc
    have h2 := score_content_fst_le sc env
    have h3 := score_flow_fst_le sc env
    have h4 := score_speech_rate_fst_le sc
    have h5 := score_grammar_fst_le sc env
    have h6 := score_vocabulary_fst_le sc
    have h7 := score_clarity_fst_le sc
    have h8 := score_engagement_fst_le sc env
    simp only [calculate_overall_score]
    omega

/-- C3: the salutation scorer searches the lowercased transcript by tier in
strict priority order (excellent 5, good 4, plain 2, none 0 with "No
salutation found."); a transcript containing both "hi" and "pleasure to
introduce" scores 5, and in every matching case the feedback names the
matched phrase (up to case). -/
theorem salutation_tiers (sc : Scorer) :
    (strContains (strLower sc.text) "hi" = true →
     strContains (strLower sc.text) "pleasure to introduce" = true →
     (score_salutation sc).1 = 5) ∧
    (salutation_excellent.any (fun p => strContains (strLower sc.text) p) = true →
      (score_salutation sc).1 = 5) ∧
    (salutation_excellent.any (fun p => strContains (strLower sc.text) p) = false →
     salutation_good.any (fun p => strContains (strLower sc.text) p) = true →
      (score_salutation sc).1 = 4) ∧
    (salutation_excellent.any (fun p => strContains (strLower sc.text) p) = false →
     salutation_good.any (fun p => strContains (strLower sc.text) p) = false →
     salutation_normal.any (fun p => strContains (strLower sc.text) p) = true →
      score_salutation sc = (2, "Basic salutation used (Hi/Hello). Try to be more formal.")) ∧
    (salutation_excellent.any (fun p => strContains (strLower sc.text) p) = false →
     salutation_good.any (fun p => strContains (strLower sc.text) p) = false →
     salutation_normal.any (fun p => strContains (strLower sc.text) p) = false →
      score_salutation sc = (0, "No salutation found.")) ∧
    ((score_salutation sc).1 ≠ 0 →
      ∃ p, (p ∈ salutation_excellent ∨ p ∈ salutation_good ∨ p ∈ salutation_normal) ∧
        strContains (strLower sc.text) p = true ∧
        strContains (strLower (score_salutation sc).2) p = true) := by
  rcases hex : salutation_excellent.find? (fun p => strContains (strLower sc.text) p) with _ | w
  · have hnex : ∀ x ∈ salutation_excellent, ¬ strContains (strLower sc.text) x = true :=
      fun x hx => by simpa using List.find?_eq_none.mp hex x hx
    have hpl1 : ∀ _ : strContains (strLower sc.text) "hi" = true,
        strContains (strLower sc.text) "pleasure to introduce" = true →
        (score_salutation sc).1 = 5 := by
      intro _ hpl
      exact absurd hpl (hnex "pleasure to introduce" (by simp [salutation_excellent]))
    have hany1 : (salutation_excellent.any fun p => strContains (strLower sc.text) p) = true →
        (score_salutation sc).1 = 5 := by
      intro hany
      rcases List.any_eq_true.mp hany with ⟨x, hx, hpx⟩
      exact absurd (by simpa using hpx) (hnex x hx)
    rcases hgd : salutation_good.find? (fun p => strContains (strLower sc.text) p) with _ | w2
    · have hngd : ∀ x ∈ salutation_good, ¬ strContains (strLower sc.text) x = true :=
        fun x hx => by simpa using List.find?_eq_none.mp hgd x hx
      have hany2 : ∀ _ : (salutation_excellent.any fun p =>
            strContains (strLower sc.text) p) = false,
          (salutation_good.any fun p => strContains (strLower sc.text) p) = true →
          (score_salutation sc).1 = 4 := by
        intro _ hany
        rcases List.any_eq_true.mp hany with ⟨x, hx, hpx⟩
        exact absurd (by simpa using hpx) (hngd x hx)
      rcases hnm : salutation_normal.find? (fun p => strContains (strLower sc.text) p)
        with _ | w3
      · have hval : score_salutation sc = (0, "No salutation found.") := by
          simp only [score_salutation, hex, hgd, hnm]
        refine ⟨hpl1, hany1, hany2, ?_, fun _ _ _ => hval, ?_⟩
        · intro _ _ hany
          rcases List.any_eq_true.mp hany with ⟨x, hx, hpx⟩
          exact absurd (by simpa using hpx)
            (fun h => by simpa [h] using List.find?_eq_none.mp hnm x hx)
        · intro hne
          rw [hval] at hne
          simp at hne
      · have hval : score_salutation sc =
            (2, "Basic salutation used (Hi/Hello). Try to be more formal.") := by
          simp only [score_salutation, hex, hgd, hnm]
        have hmem := List.mem_of_find?_eq_some hnm
        have hpw : strContains (strLower sc.text) w3 = true := List.find?_some hnm
        refine ⟨hpl1, hany1, hany2, fun _ _ _ => hval, ?_, ?_⟩
        · intro _ _ hany
          exact absurd hpw (by simpa using List.any_eq_false.mp hany w3 hmem)
        · intro _
          refine ⟨w3, Or.inr (Or.inr hmem), hpw, ?_⟩
          have hw3 : w3 = "hi" ∨ w3 = "hello" := by simpa [salutation_normal] using hmem
          rcases hw3 with rfl | rfl <;> rw [hval] <;> decide
    · have hval : score_salutation sc = (4, "Good salutation used: '" ++ w2 ++ "'") := by
        simp only [score_salutation, hex, hgd]
      have hmem := List.mem_of_find?_eq_some hgd
      have hpw : strContains (strLower sc.text) w2 = true := List.find?_some hgd
      refine ⟨hpl1, hany1, fun _ _ => by rw [hval], ?_, ?_, ?_⟩
      · intro _ hany _
        exact absurd hpw (by simpa using List.any_eq_false.mp hany w2 hmem)
      · intro _ hany _
        exact absurd hpw (by simpa using List.any_eq_false.mp hany w2 hmem)
      · intro _
        refine ⟨w2, Or.inr (Or.inl hmem), hpw, ?_⟩
        have hw2 : w2 = "good morning" ∨ w2 = "good afternoon" ∨ w2 = "good evening" ∨
            w2 = "good day" ∨ w2 = "hello everyone" := by simpa [salutation_good] using hmem
        rcases hw2 with rfl | rfl | rfl | rfl | rfl <;> rw [hval] <;> decide
  · have hval : score_salutation sc = (5, "Excellent salutation used: '" ++ w ++ "'") := by
      simp only [score_salutation, hex]
    have hmem := List.mem_of_find?_eq_some hex
    have hpw : strContains (strLower sc.text) w = true := List.find?_some hex
    refine ⟨fun _ _ => by rw [hval], fun _ => by rw [hval], ?_, ?_, ?_, ?_⟩
    · intro hany _
      exact absurd hpw (by simpa using List.any_eq_false.mp hany w hmem)
    · intro hany _ _
      exact absurd hpw (by simpa using List.any_eq_false.mp hany w hmem)
    · intro hany _ _
      exact absurd hpw (by simpa using List.any_eq_false.mp hany w hmem)
    · intro _
      refine ⟨w, Or.inl hmem, hpw, ?_⟩
      have hw : w = "excited to introduce" ∨ w = "feeling great" ∨
          w = "pleasure to introduce" ∨ w = "greetings" := by
        simpa [salutation_excellent] using hmem
      rcases hw with rfl | rfl | rfl | rfl <;> rw [hval] <;> decide

/-- A transcript containing both "Hi" and "pleasure to introduce". -/
def scSal : Scorer := ⟨"Hi, it is a pleasure to introduce myself", [], [], 0⟩

/-- Witness for `salutation_tiers`. -/
theorem salutation_tiers_witness : (score_salutation scSal).1 = 5 :=
  (salutation_tiers scSal).1 (by decide) (by decide)

/-- C4: the content score is the clamped-to-30 sum of per-topic awards, and
flipping only the age regex from no-match to match raises the score by
exactly 4 without exceeding 30. -/
theorem content_age_monotonic (sc sc' : Scorer) (env env' : Env)
    (hA : reSearch regex_age sc.text = false)
    (hA' : reSearch regex_age sc'.text = true)
    (hN : reSearch regex_name sc'.text = reSearch regex_name sc.text)
    (hS : reSearch regex_school sc'.text = reSearch regex_school sc.text)
    (hF : check_topic_robust sc' env' regex_family anchors_family true =
          check_topic_robust sc env regex_family anchors_family true)
    (hH : check_topic_robust sc' env' regex_hobbies anchors_hobbies true =
          check_topic_robust sc env regex_hobbies anchors_hobbies true)
    (hAm : check_topic_robust sc' env' regex_ambition anchors_ambition true =
           check_topic_robust sc env regex_ambition anchors_ambition true)
    (hSt : check_topic_robust sc' env' regex_strength anchors_strength true =
           check_topic_robust sc env regex_strength anchors_strength true)
    (hU : check_topic_robust sc' env' regex_unique anchors_unique true =
          check_topic_robust sc env regex_unique anchors_unique true)
    (hO : check_topic_robust sc' env' regex_origin [] false =
          check_topic_robust sc env regex_origin [] false)
    (hAc : check_topic_robust sc' env' regex_achievements anchors_achievements true =
           check_topic_robust sc env regex_achievements anchors_achievements true) :
    (score_content sc' env').1 = (score_content sc env).1 + 4 ∧
    (score_content sc' env').1 ≤ 30 := by
  simp only [score_content]
  rw [hA, hA', hN, hS, hF, hH, hAm, hSt, hU, hO, hAc]
  generalize reSearch regex_name sc.text = b1
  generalize reSearch regex_school sc.text = b3
  generalize check_topic_robust sc env regex_family anchors_family true = b4
  generalize check_topic_robust sc env regex_hobbies anchors_hobbies true = b5
  generalize check_topic_robust sc env regex_ambition anchors_ambition true = b6
  generalize check_topic_robust sc env regex_strength anchors_strength true = b7
  generalize check_topic_robust sc env regex_unique anchors_unique true = b8
  generalize check_topic_robust sc env regex_origin [] false = b9
  generalize check_topic_robust sc env regex_achievements anchors_achievements true = b10
  revert b1 b3 b4 b5 b6 b7 b8 b9 b10
  decide

/-- Witness for `content_age_monotonic`: appending "13 years" to the empty
transcript flips only the age regex. -/
theorem content_age_monotonic_witness :
    (score_content ⟨"13 years", [], [], 0⟩ envZero).1 =
      (score_content ⟨"", [], [], 0⟩ envZero).1 + 4 ∧
    (score_content ⟨"13 years", [], [], 0⟩ envZero).1 ≤ 30 :=
  content_age_monotonic ⟨"", [], [], 0⟩ ⟨"13 years", [], [], 0⟩ envZero envZero
    (by decide) (by decide) (by decide) (by decide) (by decide) (by decide) (by decide)
    (by decide) (by decide) (by decide) (by decide)

/-- The transcript of the hyphen-filter counterexample. -/
def cexText : String := "a b cd"

/-- A grammar match whose top replacement "a- b" differs from the flagged
text "a b" only by one hyphen, with no stylistic keyword in its message or
rule id. -/
def cexMatch : GMatch := ⟨"AGR", "agreement", ["a- b"], 0, 3⟩

/-- C7 counterexample: this match's top replacement differs from the flagged
text only by hyphen characters, yet the filter classifies it as a scoring
error, because the code compares the replacement with hyphens removed
against the flagged text with spaces removed, and the flagged text contains
a space. -/
theorem grammar_hyphen_claim_counterexample :
    removeChar '-' "a- b" = errTextOf cexText cexMatch ∧
    "a- b" ≠ errTextOf cexText cexMatch ∧
    cexMatch.replacements.head? = some "a- b" ∧
    matchIgnored cexText cexMatch = false ∧
    cexMatch ∈ grammar_scoring_errors cexText [cexMatch] ∧
    cexMatch ∉ grammar_ignored_issues cexText [cexMatch] :=
  ⟨by decide, by decide, by decide, by decide, by decide, by decide⟩

/-- C7 amended: a match whose top replacement contains a hyphen and, after
removing hyphens from the replacement and spaces from the flagged text,
equals the flagged text, is classified as ignored: it is excluded from the
scoring-error list that drives the error rate, yet still reported in the
ignored-issues section of the feedback. -/
theorem grammar_hyphen_amended (sc : Scorer) (env : Env) (ms : List GMatch) (m : GMatch)
    (top : String) (tl : List String)
    (hg : env.grammar = Except.ok ms) (hm : m ∈ ms)
    (hrep : m.replacements = top :: tl)
    (hhy : strContains top "-" = true)
    (heq : removeChar '-' top = removeChar ' ' (errTextOf sc.text m)) :
    m ∈ grammar_ignored_issues sc.text ms ∧
    m ∉ grammar_scoring_errors sc.text ms ∧
    strContains (score_grammar sc env).2 "[IGNORED ISSUES]" = true := by
  have hig : matchIgnored sc.text m = true := by
    simp only [matchIgnored, hrep]
    simp [hhy, heq]
  have hmemI : m ∈ grammar_ignored_issues sc.text ms :=
    List.mem_filter.mpr ⟨hm, hig⟩
  have hnotS : m ∉ grammar_scoring_errors sc.text ms := by
    intro hc
    have hx := (List.mem_filter.mp hc).2
    rw [hig] at hx
    simp at hx
  refine ⟨hmemI, hnotS, ?_⟩
  have hne : grammar_ignored_issues sc.text ms ≠ [] := by
    intro h0
    rw [h0] at hmemI
    simp at hmemI
  have hie : (grammar_ignored_issues sc.text ms).isEmpty = false :=
    List.isEmpty_eq_false.mpr hne
  simp only [score_grammar, hg, hie, Bool.false_eq_true, if_false]
  apply (strContains_iff _ _).mpr
  refine List.IsInfix.trans ?_ (infix_joinLines
    (List.mem_append_right _ (List.mem_cons_self _ _)))
  rw [String.data_append, String.data_append]
  have h1 : "[IGNORED ISSUES]".data <:+: "\n[IGNORED ISSUES] (".data :=
    (containsSeg_iff _ _).mp (by decide)
  exact h1.trans (((List.prefix_append _ _).trans (List.prefix_append _ _)).isInfix)

/-- A two-word transcript state for the hyphen-filter witness. -/
def scGram : Scorer := ⟨"ab", [], [], 0⟩

/-- A match flagged on "ab" whose top replacement is the hyphenation
"a-b". -/
def gmW : GMatch := ⟨"AGR", "agreement", ["a-b"], 0, 2⟩

/-- An environment whose grammar service returns exactly that match. -/
def envGram : Env := ⟨fun _ _ => 0, .ok [gmW], 0⟩

/-- Witness for `grammar_hyphen_amended`. -/
theorem grammar_hyphen_amended_witness :
    gmW ∈ grammar_ignored_issues scGram.text [gmW] ∧
    gmW ∉ grammar_scoring_errors scGram.text [gmW] ∧
    strContains (score_grammar scGram envGram).2 "[IGNORED ISSUES]" = true :=
  grammar_hyphen_amended scGram envGram [gmW] gmW "a-b" [] rfl (by decide) rfl
    (by decide) (by decide)
